import Mathlib

/-!
Verification development for the `companion-pack-protocol` crate.

This file gives a shallow embedding of the crate's data model
(`src/types.rs`, `src/commands.rs`, `src/responses.rs`, `src/handler.rs`,
`src/version.rs`) and of the dispatch engine and main loop
(`src/runner.rs`), together with theorems settling the specification
claims about them.

Modelling conventions:
* `serde_json::Value` is embedded as the inductive `Json`; serde_json
  numbers distinguish integers and floats, mirrored by the `int`/`float`
  constructors.  Rust `f64` fields are embedded as Lean `Float`.
* `u8`/`u32` fields carry no arithmetic in the crate and are embedded as
  `Nat`; `i32` is embedded as `Int`.
* `HashMap<String, serde_json::Value>` is embedded as an association
  list `List (String × Json)` (serialization iterates its entries).
* The `GamepackHandler` trait (with `&self` / `&mut self` receivers) is
  embedded as a structure of functions over an explicit handler state
  `σ`; `&mut self` methods return the new state.
* `serde_json::to_string` cannot fail on any value expressible in this
  embedding (no non-string map keys, no NaN), so serialization is total
  here and the `if let Ok(json)` guards of `runner.rs` always take the
  `Ok` branch.
-/

/-- Shallow embedding of `serde_json::Value`. -/
inductive Json where
  | null : Json
  | bool (b : Bool) : Json
  | int (n : Int) : Json
  | float (x : Float) : Json
  | str (s : String) : Json
  | arr (elems : List Json) : Json
  | obj (fields : List (String × Json)) : Json

/-- The keys of a serialized JSON object (empty for non-objects). -/
def Json.objKeys : Json → List String
  | .obj fields => fields.map Prod.fst
  | _ => []

/-- `src/version.rs`: `pub const PROTOCOL_VERSION: u32 = 1;`. -/
def PROTOCOL_VERSION : Nat := 1

/-- `src/types.rs` `EntryType`: closed enum of timeline entry types. -/
inductive EntryType where
  | Event : EntryType
  | Statistic : EntryType
  | Moment : EntryType
deriving DecidableEq

/-- `src/types.rs` `SummarySource`: provenance of final match stats. -/
inductive SummarySource where
  | Api : SummarySource
  | LiveFallback : SummarySource
deriving DecidableEq

/-- strum `Display` with `serialize_all = "snake_case"` for `EntryType`;
the serde `rename_all = "snake_case"` string form is identical. -/
def EntryType.display : EntryType → String
  | .Event => "event"
  | .Statistic => "statistic"
  | .Moment => "moment"

/-- strum `Display` with `serialize_all = "snake_case"` for `SummarySource`;
the serde `rename_all = "snake_case"` string form is identical. -/
def SummarySource.display : SummarySource → String
  | .Api => "api"
  | .LiveFallback => "live_fallback"

/-- Rust `char::to_ascii_lowercase`. -/
def asciiLowerChar (c : Char) : Char :=
  if 'A' ≤ c ∧ c ≤ 'Z' then Char.ofNat (c.toNat + 32) else c

/-- ASCII-lowercase every character of a string. -/
def asciiLower (s : String) : String :=
  String.mk (s.data.map asciiLowerChar)

/-- Rust `str::eq_ignore_ascii_case`. -/
def eqIgnoreAsciiCase (a b : String) : Bool :=
  asciiLower a == asciiLower b

/-- strum-derived `FromStr` for `EntryType` under
`#[strum(serialize_all = "snake_case", ascii_case_insensitive)]`:
each variant's snake_case name is matched ignoring ASCII case. -/
def EntryType.fromStr (s : String) : Option EntryType :=
  if eqIgnoreAsciiCase s "event" then some .Event
  else if eqIgnoreAsciiCase s "statistic" then some .Statistic
  else if eqIgnoreAsciiCase s "moment" then some .Moment
  else none

/-- strum-derived `FromStr` for `SummarySource` under
`#[strum(serialize_all = "snake_case", ascii_case_insensitive)]`. -/
def SummarySource.fromStr (s : String) : Option SummarySource :=
  if eqIgnoreAsciiCase s "api" then some .Api
  else if eqIgnoreAsciiCase s "live_fallback" then some .LiveFallback
  else none

/-- `src/types.rs` `GameEvent`. -/
structure GameEvent where
  event_type : String
  timestamp_secs : Float
  data : Json
  pre_capture_secs : Option Float := none
  post_capture_secs : Option Float := none

/-- `src/types.rs` `Moment`. -/
structure Moment where
  moment_id : String
  game_time_secs : Float
  data : Json

/-- `src/types.rs` `InitResponse`. -/
structure InitResponse where
  game_id : Int
  slug : String
  protocol_version : Nat

/-- `src/types.rs` `GameStatus`. -/
structure GameStatus where
  connected : Bool
  connection_status : String
  game_phase : Option String
  is_in_game : Bool

/-- `GameStatus::connected` constructor from `src/types.rs`. -/
def GameStatus.connectedStatus (status : String) : GameStatus :=
  { connected := true
    connection_status := status
    game_phase := none
    is_in_game := false }

/-- `src/types.rs` `MatchData`. -/
structure MatchData where
  game_slug : String
  game_id : Int
  result : String
  details : Json

/-- `src/types.rs` `MatchDataMessage` (tagged union, `tag = "type"`,
`rename_all = "snake_case"`). -/
inductive MatchDataMessage where
  | WriteStatistics (subpack : Nat) (external_match_id : String)
      (played_at : Option String) (game_time_secs : Float)
      (stats : List (String × Json)) : MatchDataMessage
  | WriteGameEvents (subpack : Nat) (external_match_id : String)
      (events : List GameEvent) : MatchDataMessage
  | WriteMoments (subpack : Nat) (external_match_id : String)
      (moments : List Moment) : MatchDataMessage
  | SetComplete (subpack : Nat) (external_match_id : String)
      (summary_source : SummarySource)
      (final_stats : Option (List (String × Json))) : MatchDataMessage

/-- `src/types.rs` `IsMatchInProgressResponse`. -/
structure IsMatchInProgressResponse where
  still_playing : Bool
  set_complete : Option MatchDataMessage

/-- `IsMatchInProgressResponse::ended` from `src/types.rs`. -/
def IsMatchInProgressResponse.ended : IsMatchInProgressResponse :=
  { still_playing := false, set_complete := none }

/-- `src/types.rs` `TimelineEntry`. -/
structure TimelineEntry where
  entry_type : EntryType
  entry_key : String
  game_time_secs : Float
  captured_at : String
  data : Json
  trigger_fired : Option Bool := none

/-- `src/commands.rs` `GamepackCommand`. -/
inductive GamepackCommand where
  | Init (request_id : String) : GamepackCommand
  | DetectRunning (request_id : String) : GamepackCommand
  | GetStatus (request_id : String) : GamepackCommand
  | PollEvents (request_id : String) : GamepackCommand
  | GetLiveData (request_id : String) : GamepackCommand
  | SessionStart (request_id : String) : GamepackCommand
  | SessionEnd (request_id : String) (context : Json) : GamepackCommand
  | Shutdown (request_id : String) : GamepackCommand
  | ResolveEventIcon (request_id : String) (event_key : String) : GamepackCommand
  | IsMatchInProgress (request_id : String) (subpack : Nat)
      (external_match_id : String) : GamepackCommand
  | GetMatchTimeline (request_id : String) (subpack : Nat)
      (external_match_id : String) (entry_types : Option (List String))
      (limit : Option Nat) : GamepackCommand
  | GetSampleMatchData (request_id : String) (subpack : Nat) : GamepackCommand

/-- `GamepackCommand::request_id` from `src/commands.rs`. -/
def GamepackCommand.request_id : GamepackCommand → String
  | .Init request_id => request_id
  | .DetectRunning request_id => request_id
  | .GetStatus request_id => request_id
  | .PollEvents request_id => request_id
  | .GetLiveData request_id => request_id
  | .SessionStart request_id => request_id
  | .SessionEnd request_id _ => request_id
  | .Shutdown request_id => request_id
  | .ResolveEventIcon request_id _ => request_id
  | .IsMatchInProgress request_id _ _ => request_id
  | .GetMatchTimeline request_id _ _ _ _ => request_id
  | .GetSampleMatchData request_id _ => request_id

/-- Whether a command is the `Init` variant. -/
def GamepackCommand.isInit : GamepackCommand → Bool
  | .Init _ => true
  | _ => false

/-- Whether a command is the `Shutdown` variant. -/
def GamepackCommand.isShutdown : GamepackCommand → Bool
  | .Shutdown _ => true
  | _ => false

/-- Whether a command is the `GetSampleMatchData` variant. -/
def GamepackCommand.isGetSampleMatchData : GamepackCommand → Bool
  | .GetSampleMatchData _ _ => true
  | _ => false

/-- `src/responses.rs` `GamepackResponse`. -/
inductive GamepackResponse where
  | Initialized (request_id : String) (game_id : Int) (slug : String)
      (protocol_version : Nat) : GamepackResponse
  | RunningStatus (request_id : String) (running : Bool) : GamepackResponse
  | GameStatus (request_id : String) (connected : Bool)
      (connection_status : String) (game_phase : Option String)
      (is_in_game : Bool) : GamepackResponse
  | Events (request_id : String) (events : List GameEvent) : GamepackResponse
  | LiveData (request_id : String) (data : Option Json) : GamepackResponse
  | SessionStarted (request_id : String) (context : Option Json) : GamepackResponse
  | SessionEnded (request_id : String) (match_data : Option Json) : GamepackResponse
  | Error (request_id : String) (message : String)
      (code : Option String) : GamepackResponse
  | ShutdownComplete (request_id : String) : GamepackResponse
  | EventIconResolved (request_id : String) (event_key : String)
      (icon_url : Option String) : GamepackResponse
  | MatchInProgressStatus (request_id : String) (still_playing : Bool)
      (set_complete : Option MatchDataMessage) : GamepackResponse
  | MatchTimeline (request_id : String) (found : Bool)
      (entries : List TimelineEntry) : GamepackResponse
  | WriteMatchData (message : MatchDataMessage) : GamepackResponse
  | SampleMatchData (request_id : String) (subpack : Nat)
      (data : Json) : GamepackResponse

/-- `GamepackResponse::request_id` from `src/responses.rs`: returns the
stored correlation id, and the empty string for the unsolicited
`WriteMatchData` variant. -/
def GamepackResponse.request_id : GamepackResponse → String
  | .Initialized request_id _ _ _ => request_id
  | .RunningStatus request_id _ => request_id
  | .GameStatus request_id _ _ _ _ => request_id
  | .Events request_id _ => request_id
  | .LiveData request_id _ => request_id
  | .SessionStarted request_id _ => request_id
  | .SessionEnded request_id _ => request_id
  | .Error request_id _ _ => request_id
  | .ShutdownComplete request_id => request_id
  | .EventIconResolved request_id _ _ => request_id
  | .MatchInProgressStatus request_id _ _ => request_id
  | .MatchTimeline request_id _ _ => request_id
  | .WriteMatchData _ => ""
  | .SampleMatchData request_id _ _ => request_id

/-- `GamepackResponse::error` from `src/responses.rs`. -/
def GamepackResponse.error (request_id : String) (message : String) : GamepackResponse :=
  .Error request_id message none

/-- Whether a response is the `ShutdownComplete` variant. -/
def GamepackResponse.isShutdownComplete : GamepackResponse → Bool
  | .ShutdownComplete _ => true
  | _ => false

/-- Whether a response is the `Error` variant. -/
def GamepackResponse.isError : GamepackResponse → Bool
  | .Error _ _ _ => true
  | _ => false

/-- Whether a response is the `WriteMatchData` variant. -/
def GamepackResponse.isWriteMatchData : GamepackResponse → Bool
  | .WriteMatchData _ => true
  | _ => false

/-- `src/handler.rs` `GamepackError`. -/
structure GamepackError where
  message : String
  code : Option String

/-- `src/handler.rs` trait `GamepackHandler`, embedded as a record of
functions over an explicit handler state `σ` (methods taking `&mut self`
return the successor state).  The last three fields default to the
trait's default method bodies. -/
structure GamepackHandler (σ : Type) where
  init : σ → σ × Except GamepackError InitResponse
  detect_running : σ → Bool
  get_status : σ → GameStatus
  poll_events : σ → σ × List GameEvent
  get_live_data : σ → Option Json
  on_session_start : σ → σ × Option Json
  on_session_end : σ → Json → σ × Option MatchData
  shutdown : σ → σ
  resolve_event_icon : σ → String → Option String := fun _ _ => none
  is_match_in_progress : σ → Nat → String → IsMatchInProgressResponse :=
    fun _ _ _ => IsMatchInProgressResponse.ended
  get_sample_match_data : σ → Nat → Option Json := fun _ _ => none

/-- `serde_json::to_value` on `MatchData` (used by the `SessionEnd` arm of
`dispatch_command`); total in this embedding, so the source's
`.unwrap_or_default()` never substitutes a default. -/
def matchDataToJson (m : MatchData) : Json :=
  .obj [("game_slug", .str m.game_slug),
        ("game_id", .int m.game_id),
        ("result", .str m.result),
        ("details", m.details)]

/-- `dispatch_command` from `src/runner.rs`.

The source's `match cmd` has arms for eleven of the twelve
`GamepackCommand` variants and no wildcard: there is no arm for
`GetSampleMatchData` (the match is non-exhaustive as written).  The
missing arm is embedded as `none`; every arm present in the source maps
to `some (newState, response)`. -/
def dispatch_command {σ : Type} (h : GamepackHandler σ) (s : σ)
    (cmd : GamepackCommand) : Option (σ × GamepackResponse) :=
  let request_id := cmd.request_id
  match cmd with
  | .Init _ =>
    let p := h.init s
    match p.2 with
    | .ok ir =>
      some (p.1, .Initialized request_id ir.game_id ir.slug
        (if ir.protocol_version > 0 then ir.protocol_version else PROTOCOL_VERSION))
    | .error e => some (p.1, .Error request_id e.message e.code)
  | .DetectRunning _ =>
    some (s, .RunningStatus request_id (h.detect_running s))
  | .GetStatus _ =>
    let status := h.get_status s
    some (s, .GameStatus request_id status.connected status.connection_status
      status.game_phase status.is_in_game)
  | .PollEvents _ =>
    let p := h.poll_events s
    some (p.1, .Events request_id p.2)
  | .GetLiveData _ =>
    some (s, .LiveData request_id (h.get_live_data s))
  | .SessionStart _ =>
    let p := h.on_session_start s
    some (p.1, .SessionStarted request_id p.2)
  | .SessionEnd _ context =>
    let p := h.on_session_end s context
    some (p.1, .SessionEnded request_id (p.2.map matchDataToJson))
  | .Shutdown _ =>
    some (h.shutdown s, .ShutdownComplete request_id)
  | .ResolveEventIcon _ event_key =>
    some (s, .EventIconResolved request_id event_key
      (h.resolve_event_icon s event_key))
  | .IsMatchInProgress _ subpack external_match_id =>
    let response := h.is_match_in_progress s subpack external_match_id
    some (s, .MatchInProgressStatus request_id response.still_playing
      response.set_complete)
  | .GetMatchTimeline _ _ _ _ _ =>
    some (s, .MatchTimeline request_id false [])
  | .GetSampleMatchData _ _ => none

/-- Serialize an `Option Json` field that carries no
`skip_serializing_if` annotation: serde derive emits `null` for `None`. -/
def optJson : Option Json → Json
  | some j => j
  | none => .null

/-- Serialize an `Option String` field that carries no
`skip_serializing_if` annotation: serde derive emits `null` for `None`. -/
def optStrJson : Option String → Json
  | some s => .str s
  | none => .null

/-- serde serialization of `GameEvent` (`src/types.rs`): plain struct,
fields in declaration order; `pre_capture_secs` and `post_capture_secs`
carry `skip_serializing_if = "Option::is_none"` and are omitted when
absent. -/
def serializeGameEvent (e : GameEvent) : Json :=
  .obj ([("event_type", .str e.event_type),
         ("timestamp_secs", .float e.timestamp_secs),
         ("data", e.data)]
    ++ (match e.pre_capture_secs with
        | some x => [("pre_capture_secs", Json.float x)]
        | none => [])
    ++ (match e.post_capture_secs with
        | some x => [("post_capture_secs", Json.float x)]
        | none => []))

/-- serde serialization of `Moment` (`src/types.rs`). -/
def serializeMoment (m : Moment) : Json :=
  .obj [("moment_id", .str m.moment_id),
        ("game_time_secs", .float m.game_time_secs),
        ("data", m.data)]

/-- serde serialization of `TimelineEntry` (`src/types.rs`);
`trigger_fired` carries `skip_serializing_if = "Option::is_none"`. -/
def serializeTimelineEntry (t : TimelineEntry) : Json :=
  .obj ([("entry_type", .str t.entry_type.display),
         ("entry_key", .str t.entry_key),
         ("game_time_secs", .float t.game_time_secs),
         ("captured_at", .str t.captured_at),
         ("data", t.data)]
    ++ (match t.trigger_fired with
        | some b => [("trigger_fired", Json.bool b)]
        | none => []))

/-- serde serialization of `MatchDataMessage` (`src/types.rs`):
internally tagged (`tag = "type"`, `rename_all = "snake_case"`), tag
first, then the variant's fields in declaration order; `played_at` and
`final_stats` carry `skip_serializing_if = "Option::is_none"`. -/
def serializeMatchDataMessage : MatchDataMessage → Json
  | .WriteStatistics subpack external_match_id played_at game_time_secs stats =>
    .obj ([("type", .str "write_statistics"),
           ("subpack", .int subpack),
           ("external_match_id", .str external_match_id)]
      ++ (match played_at with
          | some p => [("played_at", Json.str p)]
          | none => [])
      ++ [("game_time_secs", .float game_time_secs),
          ("stats", .obj stats)])
  | .WriteGameEvents subpack external_match_id events =>
    .obj [("type", .str "write_game_events"),
          ("subpack", .int subpack),
          ("external_match_id", .str external_match_id),
          ("events", .arr (events.map serializeGameEvent))]
  | .WriteMoments subpack external_match_id moments =>
    .obj [("type", .str "write_moments"),
          ("subpack", .int subpack),
          ("external_match_id", .str external_match_id),
          ("moments", .arr (moments.map serializeMoment))]
  | .SetComplete subpack external_match_id summary_source final_stats =>
    .obj ([("type", .str "set_complete"),
           ("subpack", .int subpack),
           ("external_match_id", .str external_match_id),
           ("summary_source", .str summary_source.display)]
      ++ (match final_stats with
          | some fs => [("final_stats", Json.obj fs)]
          | none => []))

/-- serde serialization of `GamepackResponse` (`src/responses.rs`):
internally tagged (`tag = "type"`, `rename_all = "snake_case"`), tag
first, then the variant's fields in declaration order.  The only
response field annotated `skip_serializing_if = "Option::is_none"` is
`MatchInProgressStatus.set_complete`; every other `Option` field
(`game_phase`, `data`, `context`, `match_data`, `code`, `icon_url`) is
emitted as `null` when absent. -/
def serializeResponse : GamepackResponse → Json
  | .Initialized request_id game_id slug protocol_version =>
    .obj [("type", .str "initialized"),
          ("request_id", .str request_id),
          ("game_id", .int game_id),
          ("slug", .str slug),
          ("protocol_version", .int protocol_version)]
  | .RunningStatus request_id running =>
    .obj [("type", .str "running_status"),
          ("request_id", .str request_id),
          ("running", .bool running)]
  | .GameStatus request_id connected connection_status game_phase is_in_game =>
    .obj [("type", .str "game_status"),
          ("request_id", .str request_id),
          ("connected", .bool connected),
          ("connection_status", .str connection_status),
          ("game_phase", optStrJson game_phase),
          ("is_in_game", .bool is_in_game)]
  | .Events request_id events =>
    .obj [("type", .str "events"),
          ("request_id", .str request_id),
          ("events", .arr (events.map serializeGameEvent))]
  | .LiveData request_id data =>
    .obj [("type", .str "live_data"),
          ("request_id", .str request_id),
          ("data", optJson data)]
  | .SessionStarted request_id context =>
    .obj [("type", .str "session_started"),
          ("request_id", .str request_id),
          ("context", optJson context)]
  | .SessionEnded request_id match_data =>
    .obj [("type", .str "session_ended"),
          ("request_id", .str request_id),
          ("match_data", optJson match_data)]
  | .Error request_id message code =>
    .obj [("type", .str "error"),
          ("request_id", .str request_id),
          ("message", .str message),
          ("code", optStrJson code)]
  | .ShutdownComplete request_id =>
    .obj [("type", .str "shutdown_complete"),
          ("request_id", .str request_id)]
  | .EventIconResolved request_id event_key icon_url =>
    .obj [("type", .str "event_icon_resolved"),
          ("request_id", .str request_id),
          ("event_key", .str event_key),
          ("icon_url", optStrJson icon_url)]
  | .MatchInProgressStatus request_id still_playing set_complete =>
    .obj ([("type", .str "match_in_progress_status"),
           ("request_id", .str request_id),
           ("still_playing", .bool still_playing)]
      ++ (match set_complete with
          | some m => [("set_complete", serializeMatchDataMessage m)]
          | none => []))
  | .MatchTimeline request_id found entries =>
    .obj [("type", .str "match_timeline"),
          ("request_id", .str request_id),
          ("found", .bool found),
          ("entries", .arr (entries.map serializeTimelineEntry))]
  | .WriteMatchData message =>
    .obj [("type", .str "write_match_data"),
          ("message", serializeMatchDataMessage message)]
  | .SampleMatchData request_id subpack data =>
    .obj [("type", .str "sample_match_data"),
          ("request_id", .str request_id),
          ("subpack", .int subpack),
          ("data", data)]

/-- One item delivered by `stdin.lock().lines()` in `run_gamepack`:
either a read error (`Err(_)`, treated as the stream closing) or a line
of text. -/
inductive InputLine where
  | ioError : InputLine
  | content (line : String) : InputLine

/-- Rust `l.trim().is_empty()`: true exactly when every character of the
line is whitespace. -/
def isBlankLine (l : String) : Bool :=
  l.data.all Char.isWhitespace

/-- `run_gamepack` from `src/runner.rs`, as a function from the sequence
of stdin items to the sequence of responses written to stdout.  The
`parse` parameter stands for `serde_json::from_str::<GamepackCommand>`;
its error value is the parse error's display text.  Per line: a read
error breaks the loop; a blank line is skipped; a parse failure produces
`GamepackResponse::error("", format!("Parse error: {}", e))`; otherwise
the parsed command is dispatched.  The response is serialized and
written (total here, see the header note), and the loop breaks after a
`ShutdownComplete` response.  A `GetSampleMatchData` command reaches the
non-exhaustive `dispatch_command` match, embedded as `none` for the
whole run. -/
def run_gamepack {σ : Type} (h : GamepackHandler σ)
    (parse : String → Except String GamepackCommand) :
    σ → List InputLine → Option (List GamepackResponse)
  | _, [] => some []
  | _, InputLine.ioError :: _ => some []
  | s, InputLine.content l :: rest =>
    if isBlankLine l then run_gamepack h parse s rest
    else
      let step : Option (σ × GamepackResponse) :=
        match parse l with
        | .ok cmd => dispatch_command h s cmd
        | .error e => some (s, GamepackResponse.error "" ("Parse error: " ++ e))
      match step with
      | none => none
      | some (s', r) =>
        if r.isShutdownComplete then some [r]
        else (run_gamepack h parse s' rest).map (fun out => r :: out)

/-- A concrete handler over the trivial state, mirroring the
`TestHandler` of the test module in `src/runner.rs`; used to evaluate
the theorems at concrete inputs. -/
def testHandler : GamepackHandler Unit where
  init := fun s => (s, .ok { game_id := 99, slug := "test", protocol_version := 1 })
  detect_running := fun _ => true
  get_status := fun _ => GameStatus.connectedStatus "Test connected"
  poll_events := fun s => (s, [])
  get_live_data := fun _ => some (.obj [("test", .bool true)])
  on_session_start := fun s => (s, some (.obj [("started", .bool true)]))
  on_session_end := fun s _ =>
    (s, some { game_slug := "test", game_id := 99, result := "win", details := .obj [] })
  shutdown := fun s => s

/-- A concrete handler whose `init` declares protocol version `0`, to
exercise the version-negotiation fallback. -/
def zeroVersionHandler : GamepackHandler Unit :=
  { testHandler with
    init := fun s => (s, .ok { game_id := 7, slug := "demo", protocol_version := 0 }) }

/-- A concrete stand-in for `serde_json::from_str::<GamepackCommand>`,
recognizing two fixed request lines; used to evaluate the loop theorems
at concrete inputs. -/
def demoParse : String → Except String GamepackCommand := fun l =>
  if l = "shutdown" then .ok (.Shutdown "r9")
  else if l = "detect" then .ok (.DetectRunning "r2")
  else .error "bad token"

/-- C1: the dispatch engine evaluated at a `GetSampleMatchData` command.
The `match cmd` of `dispatch_command` in `src/runner.rs` (lines 204-307)
has no arm for `GetSampleMatchData`: dispatch is undefined there, so no
`get_sample_match_data` call is made and no `SampleMatchData` response is
produced, contrary to the claim (and to the crate's own documentation of
the command). -/
theorem dispatch_get_sample_match_data_missing {σ : Type}
    (h : GamepackHandler σ) (s : σ) (rid : String) (sp : Nat) :
    dispatch_command h s (.GetSampleMatchData rid sp) = none := rfl

/-- C8: for every `GetMatchTimeline` command — whatever its subpack,
match id, entry-type filter and limit — the engine answers with
`MatchTimeline { found := false, entries := [] }`, leaving the handler
state untouched; the right-hand side does not mention the handler, so no
handler call is involved. -/
theorem dispatch_get_match_timeline_unconditional {σ : Type}
    (h : GamepackHandler σ) (s : σ) (rid mid : String) (sp : Nat)
    (ets : Option (List String)) (lim : Option Nat) :
    dispatch_command h s (.GetMatchTimeline rid sp mid ets lim) =
      some (s, .MatchTimeline rid false []) := rfl

/-- C2 counterexample: serializing the `GameStatus` response of the
claim's scenario (connected, "Connected", `game_phase = None`, not in
game) produces an object that does contain a `game_phase` key — the
field has no `skip_serializing_if` annotation in `src/responses.rs`, so
serde emits it as `null` instead of omitting it. -/
theorem game_phase_null_counterexample :
    (Json.objKeys (serializeResponse
      (.GameStatus "r1" true "Connected" none false))).contains "game_phase" = true := by
  rfl

/-- C2 amended: only the `Option` fields annotated
`skip_serializing_if = "Option::is_none"` are omitted when absent
(`MatchInProgressStatus.set_complete` being the response-side one);
`GameStatus.game_phase` has no such annotation and is serialized as an
explicit `null`, so the scenario yields the object with
`"game_phase": null` present. -/
theorem optional_field_serialization_amended :
    (∀ (rid cs : String) (c ig : Bool),
        serializeResponse (.GameStatus rid c cs none ig) =
          .obj [("type", .str "game_status"), ("request_id", .str rid),
                ("connected", .bool c), ("connection_status", .str cs),
                ("game_phase", .null), ("is_in_game", .bool ig)])
    ∧ (∀ (rid : String) (sp : Bool),
        serializeResponse (.MatchInProgressStatus rid sp none) =
          .obj [("type", .str "match_in_progress_status"),
                ("request_id", .str rid), ("still_playing", .bool sp)])
    ∧ (Json.objKeys (serializeResponse
        (.MatchInProgressStatus "r1" false none))).contains "set_complete" = false := by
  refine ⟨fun rid cs c ig => rfl, fun rid sp => rfl, by rfl⟩

lemma asciiLower_eq_of_eqIgnore {a b : String}
    (h : eqIgnoreAsciiCase a b = true) : asciiLower a = asciiLower b := by
  simpa [eqIgnoreAsciiCase] using h

lemma entryType_fromStr_insensitive (s : String) (v : EntryType)
    (h : eqIgnoreAsciiCase s v.display = true) : EntryType.fromStr s = some v := by
  have hs := asciiLower_eq_of_eqIgnore h
  cases v with
  | Event =>
    unfold EntryType.fromStr
    rw [show eqIgnoreAsciiCase s "event" = true by
      unfold eqIgnoreAsciiCase; rw [hs]; decide]
    simp
  | Statistic =>
    unfold EntryType.fromStr
    rw [show eqIgnoreAsciiCase s "event" = false by
      unfold eqIgnoreAsciiCase; rw [hs]; decide]
    rw [show eqIgnoreAsciiCase s "statistic" = true by
      unfold eqIgnoreAsciiCase; rw [hs]; decide]
    simp
  | Moment =>
    unfold EntryType.fromStr
    rw [show eqIgnoreAsciiCase s "event" = false by
      unfold eqIgnoreAsciiCase; rw [hs]; decide]
    rw [show eqIgnoreAsciiCase s "statistic" = false by
      unfold eqIgnoreAsciiCase; rw [hs]; decide]
    rw [show eqIgnoreAsciiCase s "moment" = true by
      unfold eqIgnoreAsciiCase; rw [hs]; decide]
    simp

lemma summarySource_fromStr_insensitive (s : String) (v : SummarySource)
    (h : eqIgnoreAsciiCase s v.display = true) : SummarySource.fromStr s = some v := by
  have hs := asciiLower_eq_of_eqIgnore h
  cases v with
  | Api =>
    unfold SummarySource.fromStr
    rw [show eqIgnoreAsciiCase s "api" = true by
      unfold eqIgnoreAsciiCase; rw [hs]; decide]
    simp
  | LiveFallback =>
    unfold SummarySource.fromStr
    rw [show eqIgnoreAsciiCase s "api" = false by
      unfold eqIgnoreAsciiCase; rw [hs]; decide]
    rw [show eqIgnoreAsciiCase s "live_fallback" = true by
      unfold eqIgnoreAsciiCase; rw [hs]; decide]
    simp

/-- C9: the closed enums `EntryType` and `SummarySource` have the
canonical lowercase-with-underscores textual forms required by the spec;
parsing the canonical form returns the original value (round-trip); and
the strum-derived parser (`ascii_case_insensitive`) accepts any string
that agrees with the canonical form up to ASCII case. -/
theorem enum_canonical_text_round_trip :
    (EntryType.display .Event = "event"
      ∧ EntryType.display .Statistic = "statistic"
      ∧ EntryType.display .Moment = "moment"
      ∧ SummarySource.display .Api = "api"
      ∧ SummarySource.display .LiveFallback = "live_fallback")
    ∧ (∀ v : EntryType, EntryType.fromStr v.display = some v)
    ∧ (∀ v : SummarySource, SummarySource.fromStr v.display = some v)
    ∧ (∀ (s : String) (v : EntryType),
        eqIgnoreAsciiCase s v.display = true → EntryType.fromStr s = some v)
    ∧ (∀ (s : String) (v : SummarySource),
        eqIgnoreAsciiCase s v.display = true → SummarySource.fromStr s = some v) := by
  refine ⟨⟨rfl, rfl, rfl, rfl, rfl⟩, ?_, ?_, entryType_fromStr_insensitive,
    summarySource_fromStr_insensitive⟩
  · intro v; cases v <;> decide
  · intro v; cases v <;> decide

/-- Witness for `enum_canonical_text_round_trip`: the case-insensitive
conjunct applied at the concrete strings `"EVENT"` and
`"Live_Fallback"`. -/
theorem enum_canonical_text_round_trip_witness :
    EntryType.fromStr "EVENT" = some .Event
      ∧ SummarySource.fromStr "Live_Fallback" = some .LiveFallback := by
  exact ⟨enum_canonical_text_round_trip.2.2.2.1 "EVENT" .Event (by decide),
    enum_canonical_text_round_trip.2.2.2.2 "Live_Fallback" .LiveFallback (by decide)⟩

/-- C6: the `Init` arm of the dispatch engine.  On handler success the
`Initialized` response carries the handler's declared protocol version
when it is nonzero and the crate baseline `PROTOCOL_VERSION` (which
equals `1`) when it is `0`; on handler failure the `Error` response
carries the handler error's message and optional code. -/
theorem dispatch_init_version_contract {σ : Type} (h : GamepackHandler σ)
    (s : σ) (rid : String) :
    (∀ ir : InitResponse, (h.init s).2 = .ok ir → 0 < ir.protocol_version →
        dispatch_command h s (.Init rid) =
          some ((h.init s).1, .Initialized rid ir.game_id ir.slug ir.protocol_version))
    ∧ (∀ ir : InitResponse, (h.init s).2 = .ok ir → ir.protocol_version = 0 →
        dispatch_command h s (.Init rid) =
          some ((h.init s).1, .Initialized rid ir.game_id ir.slug PROTOCOL_VERSION))
    ∧ PROTOCOL_VERSION = 1
    ∧ (∀ e : GamepackError, (h.init s).2 = .error e →
        dispatch_command h s (.Init rid) =
          some ((h.init s).1, .Error rid e.message e.code)) := by
  refine ⟨?_, ?_, rfl, ?_⟩
  · intro ir hok hpos
    simp [dispatch_command, GamepackCommand.request_id, hok, hpos]
  · intro ir hok hzero
    simp [dispatch_command, GamepackCommand.request_id, hok, hzero]
  · intro e herr
    simp [dispatch_command, GamepackCommand.request_id, herr]

/-- Witness for `dispatch_init_version_contract`: the fallback branch at
the concrete `zeroVersionHandler`, whose declared version is `0`. -/
theorem dispatch_init_version_contract_witness :
    dispatch_command zeroVersionHandler () (.Init "r1") =
      some ((), .Initialized "r1" 7 "demo" PROTOCOL_VERSION) := by
  exact (dispatch_init_version_contract zeroVersionHandler () "r1").2.1
    { game_id := 7, slug := "demo", protocol_version := 0 } rfl rfl

/-- C7 counterexample: the main loop's own parse-error path produces an
`Error` response whose `request_id` accessor returns the empty string,
and that response is not the `WriteMatchData` variant — so
`WriteMatchData` is not the only response whose accessor returns `""`. -/
theorem empty_request_id_counterexample :
    run_gamepack testHandler demoParse () [.content "???"] =
        some [.Error "" "Parse error: bad token" none]
      ∧ (GamepackResponse.Error "" "Parse error: bad token" none).request_id = ""
      ∧ (GamepackResponse.Error "" "Parse error: bad token" none).isWriteMatchData
          = false := by
  exact ⟨rfl, rfl, rfl⟩

/-- C7 amended: dispatching any command with a non-empty `request_id`
yields a response echoing that id and never the `WriteMatchData`
variant; the `WriteMatchData` accessor always returns the empty string
(it is the only variant storing no `request_id` field) — but other
variants may also return `""` when constructed with an empty stored id,
as the parse-error `Error` response is. -/
theorem request_id_correlation_amended {σ : Type} (h : GamepackHandler σ) :
    (∀ (s s' : σ) (cmd : GamepackCommand) (r : GamepackResponse),
        cmd.request_id ≠ "" →
        dispatch_command h s cmd = some (s', r) →
        r.request_id = cmd.request_id ∧ r.isWriteMatchData = false)
    ∧ ∀ m : MatchDataMessage, (GamepackResponse.WriteMatchData m).request_id = "" := by
  refine ⟨?_, fun m => rfl⟩
  intro s s' cmd r _ hd
  cases cmd with
  | Init rid =>
    cases hp : (h.init s).2 with
    | ok ir =>
      simp [dispatch_command, hp] at hd
      simp [← hd.2, GamepackResponse.request_id, GamepackCommand.request_id,
        GamepackResponse.isWriteMatchData]
    | error e =>
      simp [dispatch_command, hp] at hd
      simp [← hd.2, GamepackResponse.request_id, GamepackCommand.request_id,
        GamepackResponse.isWriteMatchData]
  | DetectRunning rid =>
    simp [dispatch_command] at hd
    simp [← hd.2, GamepackResponse.request_id, GamepackCommand.request_id,
      GamepackResponse.isWriteMatchData]
  | GetStatus rid =>
    simp [dispatch_command] at hd
    simp [← hd.2, GamepackResponse.request_id, GamepackCommand.request_id,
      GamepackResponse.isWriteMatchData]
  | PollEvents rid =>
    simp [dispatch_command] at hd
    simp [← hd.2, GamepackResponse.request_id, GamepackCommand.request_id,
      GamepackResponse.isWriteMatchData]
  | GetLiveData rid =>
    simp [dispatch_command] at hd
    simp [← hd.2, GamepackResponse.request_id, GamepackCommand.request_id,
      GamepackResponse.isWriteMatchData]
  | SessionStart rid =>
    simp [dispatch_command] at hd
    simp [← hd.2, GamepackResponse.request_id, GamepackCommand.request_id,
      GamepackResponse.isWriteMatchData]
  | SessionEnd rid context =>
    simp [dispatch_command] at hd
    simp [← hd.2, GamepackResponse.request_id, GamepackCommand.request_id,
      GamepackResponse.isWriteMatchData]
  | Shutdown rid =>
    simp [dispatch_command] at hd
    simp [← hd.2, GamepackResponse.request_id, GamepackCommand.request_id,
      GamepackResponse.isWriteMatchData]
  | ResolveEventIcon rid ek =>
    simp [dispatch_command] at hd
    simp [← hd.2, GamepackResponse.request_id, GamepackCommand.request_id,
      GamepackResponse.isWriteMatchData]
  | IsMatchInProgress rid sp mid =>
    simp [dispatch_command] at hd
    simp [← hd.2, GamepackResponse.request_id, GamepackCommand.request_id,
      GamepackResponse.isWriteMatchData]
  | GetMatchTimeline rid sp mid ets lim =>
    simp [dispatch_command] at hd
    simp [← hd.2, GamepackResponse.request_id, GamepackCommand.request_id,
      GamepackResponse.isWriteMatchData]
  | GetSampleMatchData rid sp =>
    simp [dispatch_command] at hd

/-- Witness for `request_id_correlation_amended`: the correlation
conjunct applied to a concrete `DetectRunning` command against
`testHandler`. -/
theorem request_id_correlation_amended_witness :
    (GamepackResponse.RunningStatus "r2" true).request_id =
        (GamepackCommand.DetectRunning "r2").request_id
      ∧ (GamepackResponse.RunningStatus "r2" true).isWriteMatchData = false := by
  exact (request_id_correlation_amended testHandler).1 () () (.DetectRunning "r2")
    (.RunningStatus "r2" true) (by decide) rfl

/-- C10: `Init` is the only command whose dispatch can produce an
`Error` response: for every other command, whatever the handler returns,
the dispatched response is never the `Error` variant. -/
theorem error_response_only_from_init {σ : Type} (h : GamepackHandler σ)
    (s : σ) (cmd : GamepackCommand) (hni : cmd.isInit = false) :
    ∀ (s' : σ) (r : GamepackResponse),
      dispatch_command h s cmd = some (s', r) → r.isError = false := by
  intro s' r hd
  cases cmd with
  | Init rid => simp [GamepackCommand.isInit] at hni
  | DetectRunning rid =>
    simp [dispatch_command] at hd
    simp [← hd.2, GamepackResponse.isError]
  | GetStatus rid =>
    simp [dispatch_command] at hd
    simp [← hd.2, GamepackResponse.isError]
  | PollEvents rid =>
    simp [dispatch_command] at hd
    simp [← hd.2, GamepackResponse.isError]
  | GetLiveData rid =>
    simp [dispatch_command] at hd
    simp [← hd.2, GamepackResponse.isError]
  | SessionStart rid =>
    simp [dispatch_command] at hd
    simp [← hd.2, GamepackResponse.isError]
  | SessionEnd rid context =>
    simp [dispatch_command] at hd
    simp [← hd.2, GamepackResponse.isError]
  | Shutdown rid =>
    simp [dispatch_command] at hd
    simp [← hd.2, GamepackResponse.isError]
  | ResolveEventIcon rid ek =>
    simp [dispatch_command] at hd
    simp [← hd.2, GamepackResponse.isError]
  | IsMatchInProgress rid sp mid =>
    simp [dispatch_command] at hd
    simp [← hd.2, GamepackResponse.isError]
  | GetMatchTimeline rid sp mid ets lim =>
    simp [dispatch_command] at hd
    simp [← hd.2, GamepackResponse.isError]
  | GetSampleMatchData rid sp =>
    simp [dispatch_command] at hd

/-- Witness for `error_response_only_from_init`: a concrete `GetStatus`
dispatch against `testHandler` is not an `Error` response. -/
theorem error_response_only_from_init_witness :
    (GamepackResponse.GameStatus "r3" true "Test connected" none false).isError
      = false := by
  exact error_response_only_from_init testHandler () (.GetStatus "r3") (by decide)
    () (.GameStatus "r3" true "Test connected" none false) rfl

lemma run_gamepack_cons_error {σ : Type} (h : GamepackHandler σ)
    (parse : String → Except String GamepackCommand) (s : σ) (l e : String)
    (rest : List InputLine) (hbl : isBlankLine l = false)
    (hpe : parse l = .error e) :
    run_gamepack h parse s (.content l :: rest) =
      (run_gamepack h parse s rest).map
        (fun out => GamepackResponse.error "" ("Parse error: " ++ e) :: out) := by
  simp [run_gamepack, hbl, hpe, GamepackResponse.error,
    GamepackResponse.isShutdownComplete]

lemma run_gamepack_cons_ok {σ : Type} (h : GamepackHandler σ)
    (parse : String → Except String GamepackCommand) (s s₁ : σ) (l : String)
    (cmd : GamepackCommand) (r : GamepackResponse) (rest : List InputLine)
    (hbl : isBlankLine l = false) (hpc : parse l = .ok cmd)
    (hd : dispatch_command h s cmd = some (s₁, r))
    (hsc : r.isShutdownComplete = false) :
    run_gamepack h parse s (.content l :: rest) =
      (run_gamepack h parse s₁ rest).map (fun out => r :: out) := by
  simp [run_gamepack, hbl, hpc, hd, hsc]

lemma dispatch_total {σ : Type} (h : GamepackHandler σ) (s : σ)
    (cmd : GamepackCommand) (hns : cmd.isGetSampleMatchData = false) :
    ∃ (s' : σ) (r : GamepackResponse),
      dispatch_command h s cmd = some (s', r)
        ∧ r.isShutdownComplete = cmd.isShutdown := by
  cases cmd with
  | Init rid =>
    cases hp : (h.init s).2 with
    | ok ir =>
      refine ⟨(h.init s).1,
        .Initialized rid ir.game_id ir.slug
          (if ir.protocol_version > 0 then ir.protocol_version else PROTOCOL_VERSION),
        ?_, rfl⟩
      simp [dispatch_command, GamepackCommand.request_id, hp]
    | error e =>
      refine ⟨(h.init s).1, .Error rid e.message e.code, ?_, rfl⟩
      simp [dispatch_command, GamepackCommand.request_id, hp]
  | DetectRunning rid => exact ⟨s, .RunningStatus rid (h.detect_running s), rfl, rfl⟩
  | GetStatus rid =>
    exact ⟨s, .GameStatus rid (h.get_status s).connected
      (h.get_status s).connection_status (h.get_status s).game_phase
      (h.get_status s).is_in_game, rfl, rfl⟩
  | PollEvents rid =>
    exact ⟨(h.poll_events s).1, .Events rid (h.poll_events s).2, rfl, rfl⟩
  | GetLiveData rid => exact ⟨s, .LiveData rid (h.get_live_data s), rfl, rfl⟩
  | SessionStart rid =>
    exact ⟨(h.on_session_start s).1, .SessionStarted rid (h.on_session_start s).2,
      rfl, rfl⟩
  | SessionEnd rid context =>
    exact ⟨(h.on_session_end s context).1,
      .SessionEnded rid ((h.on_session_end s context).2.map matchDataToJson), rfl, rfl⟩
  | Shutdown rid => exact ⟨h.shutdown s, .ShutdownComplete rid, rfl, rfl⟩
  | ResolveEventIcon rid ek =>
    exact ⟨s, .EventIconResolved rid ek (h.resolve_event_icon s ek), rfl, rfl⟩
  | IsMatchInProgress rid sp mid =>
    exact ⟨s, .MatchInProgressStatus rid (h.is_match_in_progress s sp mid).still_playing
      (h.is_match_in_progress s sp mid).set_complete, rfl, rfl⟩
  | GetMatchTimeline rid sp mid ets lim =>
    exact ⟨s, .MatchTimeline rid false [], rfl, rfl⟩
  | GetSampleMatchData rid sp =>
    simp [GamepackCommand.isGetSampleMatchData] at hns

/-- An input item that keeps the loop in its `Running` state: a line
that is blank, fails to parse, or parses to a command that is neither
`Shutdown` nor the unhandled `GetSampleMatchData`. -/
def progress_line (parse : String → Except String GamepackCommand) :
    InputLine → Prop
  | .ioError => False
  | .content l =>
    isBlankLine l = true
      ∨ (∃ e, parse l = .error e)
      ∨ (∃ cmd, parse l = .ok cmd ∧ cmd.isShutdown = false
          ∧ cmd.isGetSampleMatchData = false)

lemma run_gamepack_progress {σ : Type} (h : GamepackHandler σ)
    (parse : String → Except String GamepackCommand) :
    ∀ inp : List InputLine, (∀ item ∈ inp, progress_line parse item) →
    ∀ s : σ, ∃ (s' : σ) (out : List GamepackResponse),
      (∀ r ∈ out, r.isShutdownComplete = false)
        ∧ ∀ more, run_gamepack h parse s (inp ++ more) =
            (run_gamepack h parse s' more).map (fun o => out ++ o) := by
  intro inp
  induction inp with
  | nil =>
    intro _ s
    refine ⟨s, [], by simp, fun more => ?_⟩
    cases hr : run_gamepack h parse s more <;> simp [hr]
  | cons item rest ih =>
    intro hall s
    have hrest : ∀ it ∈ rest, progress_line parse it :=
      fun it hit => hall it (List.mem_cons_of_mem _ hit)
    cases item with
    | ioError => exact absurd (hall _ (List.mem_cons_self _ _)) (by simp [progress_line])
    | content l =>
      cases hbl : isBlankLine l with
      | true =>
        obtain ⟨s', out, hsc, heq⟩ := ih hrest s
        exact ⟨s', out, hsc, fun more => by
          have hm := heq more
          simpa [run_gamepack, hbl] using hm⟩
      | false =>
        rcases hall _ (List.mem_cons_self _ _) with hbl2 | ⟨e, hpe⟩ | ⟨cmd, hpc, hnsd, hnsmp⟩
        · exact absurd hbl2 (by simp [hbl])
        · obtain ⟨s', out, hsc, heq⟩ := ih hrest s
          refine ⟨s', GamepackResponse.error "" ("Parse error: " ++ e) :: out,
            ?_, fun more => ?_⟩
          · intro r hr
            rcases List.mem_cons.mp hr with hr | hr
            · subst hr; rfl
            · exact hsc r hr
          · rw [List.cons_append,
              run_gamepack_cons_error h parse s l e (rest ++ more) hbl hpe, heq more]
            cases run_gamepack h parse s' more <;> simp
        · obtain ⟨s₁, r, hd, hscEq⟩ := dispatch_total h s cmd hnsmp
          have hsc0 : r.isShutdownComplete = false := by rw [hscEq, hnsd]
          obtain ⟨s', out, hsc, heq⟩ := ih hrest s₁
          refine ⟨s', r :: out, ?_, fun more => ?_⟩
          · intro x hx
            rcases List.mem_cons.mp hx with hx | hx
            · subst hx; exact hsc0
            · exact hsc x hx
          · rw [List.cons_append,
              run_gamepack_cons_ok h parse s s₁ l cmd r (rest ++ more) hbl hpc hd hsc0,
              heq more]
            cases run_gamepack h parse s' more <;> simp

/-- C4: the main loop's stop conditions.  (i) A non-blank line parsing
to `Shutdown` makes the loop emit exactly one `ShutdownComplete`
response and stop: the rest of the input is never consumed and no
further response follows, whatever `rest` contains.  (ii,iii) The loop
also stops, emitting nothing, when the input is exhausted or the stream
errors.  (iv) Under any input whose lines are blank, unparseable, or
parse to commands other than `Shutdown` (and other than the unhandled
`GetSampleMatchData`), the loop emits no `ShutdownComplete`, and it is
still running: appending further input continues the run from the
reached handler state. -/
theorem run_gamepack_stop_conditions {σ : Type} (h : GamepackHandler σ)
    (parse : String → Except String GamepackCommand) :
    (∀ (s : σ) (l rid : String) (rest : List InputLine),
        isBlankLine l = false → parse l = .ok (.Shutdown rid) →
        run_gamepack h parse s (.content l :: rest) = some [.ShutdownComplete rid])
    ∧ (∀ s : σ, run_gamepack h parse s [] = some [])
    ∧ (∀ (s : σ) (rest : List InputLine),
        run_gamepack h parse s (.ioError :: rest) = some [])
    ∧ (∀ inp : List InputLine, (∀ item ∈ inp, progress_line parse item) →
        ∀ s : σ, ∃ (s' : σ) (out : List GamepackResponse),
          run_gamepack h parse s inp = some out
            ∧ (∀ r ∈ out, r.isShutdownComplete = false)
            ∧ ∀ more, run_gamepack h parse s (inp ++ more) =
                (run_gamepack h parse s' more).map (fun o => out ++ o)) := by
  refine ⟨?_, fun s => rfl, fun s rest => rfl, ?_⟩
  · intro s l rid rest hbl hps
    simp [run_gamepack, hbl, hps, dispatch_command, GamepackCommand.request_id,
      GamepackResponse.isShutdownComplete]
  · intro inp hall s
    obtain ⟨s', out, hsc, heq⟩ := run_gamepack_progress h parse inp hall s
    refine ⟨s', out, ?_, hsc, heq⟩
    have hnil := heq []
    rw [List.append_nil] at hnil
    simpa [run_gamepack] using hnil

/-- Witness for `run_gamepack_stop_conditions`: a concrete run in which
a `Shutdown` line is followed by more input; the loop stops after the
single `ShutdownComplete` response. -/
theorem run_gamepack_stop_conditions_witness :
    run_gamepack testHandler demoParse () [.content "shutdown", .content "detect"] =
      some [.ShutdownComplete "r9"] := by
  exact (run_gamepack_stop_conditions testHandler demoParse).1 () "shutdown" "r9"
    [.content "detect"] rfl rfl

/-- C5: a non-blank line that fails to parse yields exactly one `Error`
response with empty `request_id` and the message `Parse error: ...`,
prepended to whatever the loop produces for the remaining input — the
loop continues as if the malformed line had not occurred; in particular
a subsequent valid line (here a `DetectRunning` command) is accepted and
answered. -/
theorem malformed_line_resilience {σ : Type} (h : GamepackHandler σ)
    (parse : String → Except String GamepackCommand) (s : σ) (l e : String)
    (hbl : isBlankLine l = false) (hpe : parse l = .error e) :
    (∀ rest : List InputLine,
        run_gamepack h parse s (.content l :: rest) =
          (run_gamepack h parse s rest).map
            (fun out => GamepackResponse.error "" ("Parse error: " ++ e) :: out))
    ∧ ∀ (l2 rid2 : String), isBlankLine l2 = false →
        parse l2 = .ok (.DetectRunning rid2) →
        run_gamepack h parse s [.content l, .content l2] =
          some [GamepackResponse.error "" ("Parse error: " ++ e),
                .RunningStatus rid2 (h.detect_running s)] := by
  refine ⟨fun rest => run_gamepack_cons_error h parse s l e rest hbl hpe, ?_⟩
  intro l2 rid2 hbl2 hp2
  rw [run_gamepack_cons_error h parse s l e [.content l2] hbl hpe,
    run_gamepack_cons_ok h parse s s l2 (.DetectRunning rid2)
      (.RunningStatus rid2 (h.detect_running s)) [] hbl2 hp2 rfl rfl]
  rfl

/-- Witness for `malformed_line_resilience`: a malformed line followed
by a valid `detect` line against the concrete handler and parser. -/
theorem malformed_line_resilience_witness :
    run_gamepack testHandler demoParse () [.content "???", .content "detect"] =
      some [.Error "" "Parse error: bad token" none, .RunningStatus "r2" true] := by
  exact (malformed_line_resilience testHandler demoParse () "???" "bad token"
    rfl rfl).2 "detect" "r2" rfl rfl
